import Mathlib

/-!
Verification of the ParrainSport Stripe server (parrainsport-stripe-server).

The repository contains four variants of one small Express server:
two in index.js (a subscription server with SEO routes, and a plain
subscription server) and two earlier one-time-payment variants in the
unnamed source parts.  All share the same shape: a checkout-session
issuing route and a Stripe webhook route that maps verified billing
events to row updates on a Supabase users table.

This file shallowly embeds the data model (users rows, the payment-log
rows of the payment variant), the decoded webhook events, the webhook
dispatch of both variants, the startup environment checks of both
index.js variants, and the create-checkout-session route, and proves
the specified properties about them.  External collaborators (the
Stripe SDK and Supabase client) are modelled at their call boundary:
signature verification is the Except result of constructEvent, and
store writes are row-filtered functional updates, as the code issues
them.
-/

namespace ParrainSport

/-- Truthiness of an optional string as JavaScript evaluates it:
`undefined` / `null` (here: none) and the empty string are falsy,
every other string is truthy. -/
def truthy : Option String → Bool
  | some s => s ≠ ""
  | none => false

/-- Row of the Supabase users table, restricted to the columns the
server reads or writes: `id` (primary key), `stripe_customer_id`,
`stripe_subscription_id` (both nullable), and the entitlement flag
`est_booste`. -/
structure Account where
  id : String
  stripe_customer_id : Option String
  stripe_subscription_id : Option String
  est_booste : Bool
deriving DecidableEq, Repr

/-- The users table: a list of rows.  Supabase
`update(..).eq(col, val)` updates every row matching the filter. -/
abbrev Store := List Account

/-- Decoded Stripe webhook event, as the index.js switch reads it from
`event.type` and `event.data.object`: the four handled types with the
payload fields the handler actually uses, and a catch-all for every
other type (the default branch is a no-op). -/
inductive Event where
  | checkoutCompleted (client_reference_id customer subscription : Option String)
  | invoicePaymentSucceeded (subscription : Option String)
  | subscriptionUpdated (id status : String)
  | subscriptionDeleted (id : String)
  | ignored
deriving DecidableEq, Repr

/-- The webhook event-to-state mapping of index.js (both index.js
variants have identical logic here): the body of the switch statement,
one row-filtered update per event kind.

* checkout.session.completed: if client_reference_id AND customer are
  truthy, set stripe_customer_id, stripe_subscription_id and
  est_booste = true on rows with id = client_reference_id; else no-op.
* invoice.payment_succeeded: if the invoice's subscription is truthy,
  set est_booste = true on rows with that stripe_subscription_id.
* customer.subscription.updated: est_booste becomes
  (status is one of active, trialing, past_due); the update also
  rewrites stripe_subscription_id with the id it filters on.
* customer.subscription.deleted: est_booste = false on matching rows.
* anything else: no-op. -/
def handleEvent (ev : Event) (st : Store) : Store :=
  match ev with
  | .checkoutCompleted userId customerId subscriptionId =>
      if truthy userId && truthy customerId then
        st.map fun a =>
          if a.id = userId.getD "" then
            { a with stripe_customer_id := customerId,
                     stripe_subscription_id := subscriptionId,
                     est_booste := true }
          else a
      else st
  | .invoicePaymentSucceeded subscriptionId =>
      if truthy subscriptionId then
        st.map fun a =>
          if a.stripe_subscription_id = subscriptionId then
            { a with est_booste := true }
          else a
      else st
  | .subscriptionUpdated subId status =>
      let active := status = "active" || status = "trialing" || status = "past_due"
      st.map fun a =>
        if a.stripe_subscription_id = some subId then
          { a with stripe_subscription_id := some subId, est_booste := active }
        else a
  | .subscriptionDeleted subId =>
      st.map fun a =>
        if a.stripe_subscription_id = some subId then
          { a with est_booste := false }
        else a
  | .ignored => st

/-- The webhook route's HTTP outcome in index.js: 501 when the Stripe
client is absent, 400 with the thrown message interpolated into the
body on signature-verification failure, 500 on a storage-layer error,
and 200 with received true otherwise. -/
inductive WebhookResponse where
  | notConfigured
  | sigError (msg : String)
  | ok
  | serverError
deriving DecidableEq, Repr

/-- HTTP status code of each webhook outcome. -/
def WebhookResponse.statusCode : WebhookResponse → Nat
  | .notConfigured => 501
  | .sigError _ => 400
  | .ok => 200
  | .serverError => 500

/-- Response body of each webhook outcome, as index.js sends it
(the signature-failure body interpolates err.message). -/
def WebhookResponse.bodyText : WebhookResponse → String
  | .notConfigured => "Stripe not configured"
  | .sigError msg => "Webhook Error: " ++ msg
  | .ok => "received true"
  | .serverError => "error server error"

/-- The POST /webhook handler of index.js.  `constructed` is the
outcome of stripe.webhooks.constructEvent over the raw body, the
stripe-signature header and the signing secret: an error message when
it throws (mismatch, malformed header or malformed body), the decoded
event when it verifies.  `storageFails` abstracts whether the awaited
Supabase update in the dispatched branch throws, which the catch maps
to a 500.  The pair returned is the response and the resulting table
state. -/
def webhookHandler (stripeConfigured : Bool) (constructed : Except String Event)
    (storageFails : Bool) (st : Store) : WebhookResponse × Store :=
  if !stripeConfigured then (.notConfigured, st)
  else
    match constructed with
    | .error msg => (.sigError msg, st)
    | .ok ev => if storageFails then (.serverError, st) else (.ok, handleEvent ev st)

example :
    handleEvent (.subscriptionUpdated "sub_1" "canceled")
      [⟨"u1", none, some "sub_1", true⟩] = [⟨"u1", none, some "sub_1", false⟩] := by
  decide

example :
    handleEvent (.checkoutCompleted (some "u1") (some "cus_1") (some "sub_9"))
      [⟨"u1", none, none, false⟩] = [⟨"u1", some "cus_1", some "sub_9", true⟩] := by
  decide

/-! The one-time-payment variant (the unnamed source part): its
checkout.session.completed branch inserts a row into the paiements
table and then sets the boost flag on the users row. -/

/-- Users row as the payment variant touches it: only the id filter
and the boost flag are involved.  The source spells the column with an
accent (est_booste with an accented e), which Lean identifiers do not
admit. -/
structure UserP where
  id : String
  est_booste : Bool
deriving DecidableEq, Repr

/-- Row of the paiements table, with the four columns the insert
supplies. -/
structure Paiement where
  id_utilisateur : String
  montant : Int
  type : String
  stripe_payment_id : String
deriving DecidableEq, Repr

/-- Database state seen by the payment variant: the users table and
the paiements log.  An insert appends a row; the code relies on a SQL
unique constraint (outside this repository) for deduplication. -/
structure StoreP where
  users : List UserP
  paiements : List Paiement
deriving DecidableEq, Repr

/-- Checkout session object fields read by the payment variant's
webhook branch. -/
structure SessionP where
  id : String
  client_reference_id : Option String
  metadata_user_id : Option String
  metadata_boost_type : Option String
  amount_total : Option Int
deriving DecidableEq, Repr

/-- Event as the payment variant's webhook sees it: it only inspects
checkout.session.completed and ignores everything else. -/
inductive EventP where
  | checkoutCompleted (s : SessionP)
  | other
deriving DecidableEq, Repr

/-- The payment variant's checkout.session.completed processing:
userId is client_reference_id falling back (by JS truthiness) to
metadata user_id; amount defaults to 0; the type string is chosen from
the boost_type metadata; when userId is truthy, a paiements row is
inserted and est_booste is set on the matching users rows.  When
userId is falsy nothing is written. -/
def handleEventP (ev : EventP) (st : StoreP) : StoreP :=
  match ev with
  | .checkoutCompleted s =>
      let userId : Option String :=
        if truthy s.client_reference_id then s.client_reference_id else s.metadata_user_id
      let amount : Int := s.amount_total.getD 0
      let boostType : String :=
        if s.metadata_boost_type = some "coach" then "boost coach" else "boost adherent"
      if truthy userId then
        let u := userId.getD ""
        { users := st.users.map fun r => if r.id = u then { r with est_booste := true } else r,
          paiements := st.paiements ++ [⟨u, amount, boostType, s.id⟩] }
      else st
  | .other => st

/-! Startup environment checks.  The first index.js variant exits only
when the Supabase variables are missing and merely warns (then starts,
with the Stripe client left null) when the Stripe variables are
missing; the second variant exits when any of the five is missing. -/

/-- Environment variables the startup checks read, each `none` when
unset (JS truthiness applies: the empty string also counts as
missing). -/
structure Env where
  STRIPE_SECRET_KEY : Option String
  STRIPE_PRICE_ID : Option String
  STRIPE_WEBHOOK_SECRET : Option String
  SUPABASE_URL : Option String
  SUPABASE_SERVICE_ROLE_KEY : Option String
deriving DecidableEq, Repr

/-- Startup outcome: process.exit(1), start with a Stripe warning (the
Stripe routes answer 501 or fail), or start fully configured. -/
inductive Startup where
  | exitFail
  | startWithWarning
  | start
deriving DecidableEq, Repr

/-- Startup check of the first index.js variant: exit(1) iff
SUPABASE_URL or SUPABASE_SERVICE_ROLE_KEY is falsy; otherwise start,
with only a console warning when any Stripe variable is falsy. -/
def startupV1 (e : Env) : Startup :=
  if !truthy e.SUPABASE_URL || !truthy e.SUPABASE_SERVICE_ROLE_KEY then .exitFail
  else if !truthy e.STRIPE_SECRET_KEY || !truthy e.STRIPE_PRICE_ID
          || !truthy e.STRIPE_WEBHOOK_SECRET then .startWithWarning
  else .start

/-- Startup check of the second index.js variant: exit(1) iff any of
the five variables is falsy. -/
def startupV2 (e : Env) : Startup :=
  if !truthy e.STRIPE_SECRET_KEY || !truthy e.STRIPE_PRICE_ID
      || !truthy e.STRIPE_WEBHOOK_SECRET || !truthy e.SUPABASE_URL
      || !truthy e.SUPABASE_SERVICE_ROLE_KEY then .exitFail
  else .start

/-! The POST /create-checkout-session route of index.js.  Its external
calls are modelled as an ordered effect trace, so that the
read-then-create-then-write-then-create-session sequencing of the code
is visible to the theorems. -/

/-- External call issued by the create-checkout-session route, in the
order the code awaits them. -/
inductive Effect where
  | customersCreate (email : Option String) (metaUserId : String)
  | dbUpdateCustomerId (userId customerId : String)
  | sessionsCreate (mode : String) (customer : String) (price : Option String)
      (clientReferenceId : String)
deriving DecidableEq, Repr

/-- HTTP outcome of the create-checkout-session route. -/
inductive CheckoutResult where
  | notConfigured
  | badRequest
  | okUrl (url : String)
deriving DecidableEq, Repr

/-- Configuration the route reads: the price id from the environment
(possibly unset in the first variant, which starts without it). -/
structure Config where
  STRIPE_PRICE_ID : Option String
deriving DecidableEq, Repr

/-- The create-checkout-session handler of index.js.  `freshCustomerId`
is the id the Stripe customers.create call would return and
`sessionUrl` the url of the created session; both are data of the
external collaborator.  The handler: 501 when Stripe is unconfigured;
400 when userId is falsy; otherwise it reads the user's
stripe_customer_id (maybeSingle over the id filter), creates and
persists a customer when that value is falsy, and finally creates a
subscription-mode session whose price comes from configuration and
whose client_reference_id is the userId.  Returns the outcome, the
ordered effect trace and the resulting users table. -/
def createCheckoutSession (stripeConfigured : Bool) (cfg : Config)
    (userId email : Option String) (freshCustomerId sessionUrl : String)
    (st : Store) : CheckoutResult × List Effect × Store :=
  if !stripeConfigured then (.notConfigured, [], st)
  else if !truthy userId then (.badRequest, [], st)
  else
    let u := userId.getD ""
    let existing : Option String := (st.find? fun a => a.id = u).bind Account.stripe_customer_id
    if truthy existing then
      (.okUrl sessionUrl,
       [.sessionsCreate "subscription" (existing.getD "") cfg.STRIPE_PRICE_ID u],
       st)
    else
      (.okUrl sessionUrl,
       [.customersCreate (if truthy email then email else none) u,
        .dbUpdateCustomerId u freshCustomerId,
        .sessionsCreate "subscription" freshCustomerId cfg.STRIPE_PRICE_ID u],
       st.map fun a => if a.id = u then { a with stripe_customer_id := some freshCustomerId } else a)

/-! Helper lemmas shared by several theorems. -/

/-- A map whose function fixes every member of the list is the
identity on that list. -/
theorem map_eq_self_of_mem {α : Type} (f : α → α) :
    ∀ l : List α, (∀ a ∈ l, f a = a) → l.map f = l
  | [], _ => rfl
  | a :: l, h => by
    rw [List.map_cons, h a (List.mem_cons_self a l),
      map_eq_self_of_mem f l fun b hb => h b (List.mem_cons_of_mem a hb)]

/-- Mapping an idempotent function twice is the same as mapping it
once. -/
theorem map_map_idem {α : Type} (f : α → α) (l : List α) (h : ∀ a, f (f a) = f a) :
    (l.map f).map f = l.map f := by
  rw [List.map_map]
  exact congrArg (List.map · l) (funext h)

/-- C2: a verified subscription_updated event sets est_booste to true
exactly when the status is active, trialing or past_due (false for
every other status, e.g. canceled), on each row whose stored
stripe_subscription_id equals the event's subscription id, leaving
other rows unchanged; and the spec's scenario holds: on a row with
subscription sub_1 and est_booste true, a canceled event yields
est_booste false and a subsequent active event yields est_booste true
again. -/
theorem subscription_updated_entitlement (subId status : String) (st : Store)
    (i : Nat) (a : Account) (hia : st[i]? = some a) :
    (a.stripe_subscription_id = some subId →
      (handleEvent (.subscriptionUpdated subId status) st)[i]? =
        some { a with stripe_subscription_id := some subId,
                      est_booste := (status = "active" || status = "trialing"
                        || status = "past_due") }) ∧
    (a.stripe_subscription_id ≠ some subId →
      (handleEvent (.subscriptionUpdated subId status) st)[i]? = some a) ∧
    (handleEvent (.subscriptionUpdated "sub_1" "canceled")
        [⟨"u1", none, some "sub_1", true⟩] = [⟨"u1", none, some "sub_1", false⟩]) ∧
    (handleEvent (.subscriptionUpdated "sub_1" "active")
        (handleEvent (.subscriptionUpdated "sub_1" "canceled")
          [⟨"u1", none, some "sub_1", true⟩]) = [⟨"u1", none, some "sub_1", true⟩]) := by
  refine ⟨?_, ?_, by decide, by decide⟩
  · intro h
    simp [handleEvent, List.getElem?_map, hia, h]
  · intro h
    simp [handleEvent, List.getElem?_map, hia, h]

/-- Witness for C2 at a concrete input: a past_due update entitles the
matched row. -/
theorem subscription_updated_entitlement_witness :
    (handleEvent (.subscriptionUpdated "sub_7" "past_due")
        [⟨"u2", none, some "sub_7", false⟩])[0]? =
      some ⟨"u2", none, some "sub_7", true⟩ :=
  (subscription_updated_entitlement "sub_7" "past_due"
      [⟨"u2", none, some "sub_7", false⟩] 0 ⟨"u2", none, some "sub_7", false⟩ rfl).1 rfl

/-- C4: a verified subscription_deleted event sets est_booste to false
on each row whose stored stripe_subscription_id equals the event's
subscription id, for every prior store state and regardless of the
row's previous est_booste value (the row is arbitrary). -/
theorem subscription_deleted_unentitles (subId : String) (st : Store)
    (i : Nat) (a : Account) (hia : st[i]? = some a)
    (hmatch : a.stripe_subscription_id = some subId) :
    (handleEvent (.subscriptionDeleted subId) st)[i]? =
      some { a with est_booste := false } := by
  simp [handleEvent, List.getElem?_map, hia, hmatch]

/-- Witness for C4 at a concrete input: a previously entitled row is
unentitled by the deletion event. -/
theorem subscription_deleted_unentitles_witness :
    (handleEvent (.subscriptionDeleted "sub_1")
        [⟨"u1", some "cus_1", some "sub_1", true⟩])[0]? =
      some ⟨"u1", some "cus_1", some "sub_1", false⟩ :=
  subscription_deleted_unentitles "sub_1" [⟨"u1", some "cus_1", some "sub_1", true⟩]
    0 ⟨"u1", some "cus_1", some "sub_1", true⟩ rfl rfl

/-- C10: a subscription_updated event never changes any row's
stripe_subscription_id (the update writes back the very id it filters
on), and when no row stores the event's subscription id the whole
store is unchanged (the update matches zero rows). -/
theorem subscription_updated_frame (subId status : String) (st : Store) :
    (∀ i : Nat,
      ((handleEvent (.subscriptionUpdated subId status) st)[i]?).map
          Account.stripe_subscription_id =
        (st[i]?).map Account.stripe_subscription_id) ∧
    ((∀ a ∈ st, a.stripe_subscription_id ≠ some subId) →
      handleEvent (.subscriptionUpdated subId status) st = st) := by
  constructor
  · intro i
    simp only [handleEvent, List.getElem?_map]
    cases h : st[i]? with
    | none => rfl
    | some a =>
      by_cases hm : a.stripe_subscription_id = some subId
      · simp [hm]
      · simp [hm]
  · intro hall
    simp only [handleEvent]
    exact map_eq_self_of_mem _ st fun a ha => by simp [hall a ha]

/-- Witness for C10 at a concrete input: the frame holds on a store
whose row carries a different subscription id. -/
theorem subscription_updated_frame_witness :
    ((handleEvent (.subscriptionUpdated "sub_1" "active")
        [⟨"u1", none, some "sub_2", true⟩])[0]?).map Account.stripe_subscription_id =
      ([(⟨"u1", none, some "sub_2", true⟩ : Account)][0]?).map
        Account.stripe_subscription_id ∧
    handleEvent (.subscriptionUpdated "sub_1" "active")
        [⟨"u1", none, some "sub_2", true⟩] = [⟨"u1", none, some "sub_2", true⟩] :=
  ⟨(subscription_updated_frame "sub_1" "active" [⟨"u1", none, some "sub_2", true⟩]).1 0,
   (subscription_updated_frame "sub_1" "active" [⟨"u1", none, some "sub_2", true⟩]).2
     (by decide)⟩

/-- HTTP outcome of the payment variant's webhook route: 400 with the
interpolated message on verification failure, 200 with an empty body
on success, 500 on a handler error. -/
inductive ResponseP where
  | sigError (msg : String)
  | ok
  | serverError
deriving DecidableEq, Repr

/-- HTTP status code of each payment-variant webhook outcome. -/
def ResponseP.statusCode : ResponseP → Nat
  | .sigError _ => 400
  | .ok => 200
  | .serverError => 500

/-- The POST /webhook handler of the payment variant: constructEvent
throwing yields the 400 rejection with the message in the body and no
store access; otherwise the checkout branch runs and 200 is sent (500
when a storage call throws). -/
def webhookHandlerP (constructed : Except String EventP) (storageFails : Bool)
    (st : StoreP) : ResponseP × StoreP :=
  match constructed with
  | .error msg => (.sigError msg, st)
  | .ok ev => if storageFails then (.serverError, st) else (.ok, handleEventP ev st)

/-- C3: a webhook delivery whose signature does not verify (the
constructEvent call throws, whether from a mismatched signature, a
malformed header or a malformed body) is rejected with status 400 — a
non-2xx outcome — and the store is left exactly as it was, in both the
subscription variant and the payment variant; no decoded event reaches
the dispatch. -/
theorem webhook_signature_failure_rejects (msg : String) (storageFails : Bool)
    (st : Store) (stP : StoreP) :
    (webhookHandler true (.error msg) storageFails st).2 = st ∧
    ((webhookHandler true (.error msg) storageFails st).1).statusCode = 400 ∧
    ¬ (200 ≤ ((webhookHandler true (.error msg) storageFails st).1).statusCode ∧
        ((webhookHandler true (.error msg) storageFails st).1).statusCode < 300) ∧
    (webhookHandlerP (.error msg) storageFails stP).2 = stP ∧
    ((webhookHandlerP (.error msg) storageFails stP).1).statusCode = 400 := by
  exact ⟨rfl, rfl, by simp [webhookHandler, WebhookResponse.statusCode], rfl, rfl⟩

/-- C6: a verified invoice_payment_succeeded event whose subscription
id is stored on no row leaves every row untouched and the route still
answers 200 with received true; and after successful verification,
with no storage-layer error, the response is success whatever the
event is (storage errors are the only non-success cause). -/
theorem invoice_unknown_subscription_noop (sub : String) (st : Store)
    (hnone : ∀ a ∈ st, a.stripe_subscription_id ≠ some sub) :
    webhookHandler true (.ok (.invoicePaymentSucceeded (some sub))) false st = (.ok, st) ∧
    (WebhookResponse.ok).statusCode = 200 ∧
    (∀ (ev : Event) (st2 : Store),
      (webhookHandler true (.ok ev) false st2).1 = .ok) := by
  refine ⟨?_, rfl, fun ev st2 => rfl⟩
  simp only [webhookHandler, Bool.not_true, Bool.false_eq_true, if_false,
    Bool.if_false_left]
  refine Prod.ext rfl ?_
  simp only [handleEvent]
  by_cases ht : truthy (some sub) = true
  · rw [if_pos ht]
    exact map_eq_self_of_mem _ st fun a ha => by simp [hnone a ha]
  · rw [if_neg ht]

/-- Witness for C6 at a concrete input: an invoice event for sub_1
against a store that only knows sub_2 changes nothing and succeeds. -/
theorem invoice_unknown_subscription_noop_witness :
    webhookHandler true (.ok (.invoicePaymentSucceeded (some "sub_1"))) false
        [⟨"u1", none, some "sub_2", true⟩] =
      (.ok, [⟨"u1", none, some "sub_2", true⟩]) :=
  (invoice_unknown_subscription_noop "sub_1" [⟨"u1", none, some "sub_2", true⟩]
    (by decide)).1

/-- C7 counterexample: two deliveries failing verification for
different reasons (a malformed header versus a signature mismatch, as
reported by the thrown messages) receive different responses — the 400
body interpolates err.message, so the rejection is not one uniform
generic response. -/
theorem webhook_rejection_not_uniform :
    (webhookHandler true
        (.error "Unable to extract timestamp and signatures from header") false []).1 ≠
      (webhookHandler true
        (.error "No signatures found matching the expected signature for payload")
        false []).1 := by
  decide

/-- C7 amended: all verification failures share the same 400 status
code, but the response body interpolates the thrown error message
verbatim, so the body can reveal which part of the check failed. -/
theorem webhook_rejection_status_uniform (m1 m2 : String) (b1 b2 : Bool)
    (st1 st2 : Store) :
    ((webhookHandler true (.error m1) b1 st1).1).statusCode =
      ((webhookHandler true (.error m2) b2 st2).1).statusCode ∧
    ((webhookHandler true (.error m1) b1 st1).1).bodyText = "Webhook Error: " ++ m1 :=
  ⟨rfl, rfl⟩

/-- C1 counterexample: a verified checkout_completed event whose
accountId (client_reference_id) is present but whose customer field is
null performs no store mutation — the code requires client_reference_id
AND customer to be truthy — contradicting the claim that the presence
of accountId alone decides the update. -/
theorem checkout_missing_customer_no_update :
    handleEvent (.checkoutCompleted (some "u1") none (some "sub_1"))
        [⟨"u1", none, none, false⟩] = [⟨"u1", none, none, false⟩] ∧
      ¬ ∃ a, a ∈ handleEvent (.checkoutCompleted (some "u1") none (some "sub_1"))
          [⟨"u1", none, none, false⟩] ∧ a.est_booste = true := by
  decide

/-- C1 amended: the checkout_completed update happens exactly when
both accountId (client_reference_id) and the event's customer field
are truthy: then every row with id = accountId receives
stripe_customer_id, stripe_subscription_id and est_booste = true and
every other row is unchanged; when either field is falsy the store is
untouched. -/
theorem checkout_completed_update_condition
    (userId customerId subscriptionId : Option String)
    (st : Store) (i : Nat) (a : Account) (hia : st[i]? = some a) :
    ((truthy userId && truthy customerId) = true →
      (a.id = userId.getD "" →
        (handleEvent (.checkoutCompleted userId customerId subscriptionId) st)[i]? =
          some { a with stripe_customer_id := customerId,
                        stripe_subscription_id := subscriptionId,
                        est_booste := true }) ∧
      (a.id ≠ userId.getD "" →
        (handleEvent (.checkoutCompleted userId customerId subscriptionId) st)[i]? =
          some a)) ∧
    ((truthy userId && truthy customerId) = false →
      handleEvent (.checkoutCompleted userId customerId subscriptionId) st = st) := by
  constructor
  · intro hcond
    constructor
    · intro hid
      simp [handleEvent, hcond, List.getElem?_map, hia, hid]
    · intro hid
      simp [handleEvent, hcond, List.getElem?_map, hia, hid]
  · intro hcond
    simp [handleEvent, hcond]

/-- Witness for the amended C1 at a concrete input: with both fields
present the matched row receives all three values. -/
theorem checkout_completed_update_condition_witness :
    (handleEvent (.checkoutCompleted (some "u1") (some "cus_5") (some "sub_5"))
        [⟨"u1", none, none, false⟩])[0]? =
      some ⟨"u1", some "cus_5", some "sub_5", true⟩ :=
  ((checkout_completed_update_condition (some "u1") (some "cus_5") (some "sub_5")
      [⟨"u1", none, none, false⟩] 0 ⟨"u1", none, none, false⟩ rfl).1 rfl).1 rfl

/-- C5 counterexample: in the payment variant, processing the
identical checkout_completed event twice does not leave the store in
the state of processing it once — the paiements insert appends a
second identical row on the redelivery. -/
theorem checkout_redelivery_not_idempotent :
    handleEventP (.checkoutCompleted ⟨"cs_1", some "u1", none, none, some 900⟩)
        (handleEventP (.checkoutCompleted ⟨"cs_1", some "u1", none, none, some 900⟩)
          ⟨[⟨"u1", false⟩], []⟩) ≠
      handleEventP (.checkoutCompleted ⟨"cs_1", some "u1", none, none, some 900⟩)
        ⟨[⟨"u1", false⟩], []⟩ := by
  decide

/-- C5 amended: duplicate delivery of an identical checkout_completed
event is idempotent on the users table in every variant — the
subscription variant's whole store is unchanged by the second
processing, and in the payment variant the users table is unchanged —
but the payment variant's paiements log receives one appended row per
delivery (its deduplication is delegated to a database unique
constraint outside this code). -/
theorem checkout_redelivery_idempotence_amended
    (userId customerId subscriptionId : Option String) (st : Store)
    (s : SessionP) (stP : StoreP) :
    handleEvent (.checkoutCompleted userId customerId subscriptionId)
        (handleEvent (.checkoutCompleted userId customerId subscriptionId) st) =
      handleEvent (.checkoutCompleted userId customerId subscriptionId) st ∧
    (handleEventP (.checkoutCompleted s) (handleEventP (.checkoutCompleted s) stP)).users =
      (handleEventP (.checkoutCompleted s) stP).users := by
  constructor
  · by_cases hcond : (truthy userId && truthy customerId) = true
    · simp only [handleEvent, hcond, if_true]
      refine map_map_idem _ st fun a => ?_
      by_cases hid : a.id = userId.getD ""
      · simp [hid]
      · simp [hid]
    · simp [handleEvent, hcond]
  · by_cases huser :
      (truthy (if truthy s.client_reference_id then s.client_reference_id
        else s.metadata_user_id)) = true
    · simp only [handleEventP, huser, if_true]
      refine map_map_idem _ stP.users fun r => ?_
      by_cases hid : r.id = (if truthy s.client_reference_id then s.client_reference_id
          else s.metadata_user_id).getD ""
      · simp [hid]
      · simp [hid]
    · simp [handleEventP, huser]

/-- Witness for the amended C5 at a concrete input: redelivery of a
subscription-variant checkout event reproduces the same store, and the
payment variant's users table is stable under redelivery. -/
theorem checkout_redelivery_idempotence_amended_witness :
    handleEvent (.checkoutCompleted (some "u1") (some "cus_1") (some "sub_1"))
        (handleEvent (.checkoutCompleted (some "u1") (some "cus_1") (some "sub_1"))
          [⟨"u1", none, none, false⟩]) =
      handleEvent (.checkoutCompleted (some "u1") (some "cus_1") (some "sub_1"))
        [⟨"u1", none, none, false⟩] ∧
    (handleEventP (.checkoutCompleted ⟨"cs_1", some "u1", none, none, some 900⟩)
        (handleEventP (.checkoutCompleted ⟨"cs_1", some "u1", none, none, some 900⟩)
          ⟨[⟨"u1", false⟩], []⟩)).users =
      (handleEventP (.checkoutCompleted ⟨"cs_1", some "u1", none, none, some 900⟩)
        ⟨[⟨"u1", false⟩], []⟩).users :=
  checkout_redelivery_idempotence_amended (some "u1") (some "cus_1") (some "sub_1")
    [⟨"u1", none, none, false⟩] ⟨"cs_1", some "u1", none, none, some 900⟩
    ⟨[⟨"u1", false⟩], []⟩

/-- C9 counterexample: with the Supabase variables set but every
Stripe variable missing, the first index.js variant starts anyway
(after a console warning) — it does not refuse to start although the
processor secret key, the price identifier and the webhook signing
secret are all mandatory configuration. -/
theorem startup_missing_stripe_still_starts :
    startupV1 ⟨none, none, none, some "https://x.supabase.co", some "service-key"⟩ =
        .startWithWarning ∧
      startupV1 ⟨none, none, none, some "https://x.supabase.co", some "service-key"⟩ ≠
        .exitFail := by
  decide

/-- C9 amended: the second index.js variant fails fast exactly when
any of the five mandatory values is missing, but the first variant
fails fast only when the data-store URL or the service credential is
missing — a missing Stripe secret key, price id or webhook secret only
produces a warning and the server starts degraded. -/
theorem startup_check_characterization (e : Env) :
    (startupV1 e = .exitFail ↔
      (truthy e.SUPABASE_URL = false ∨ truthy e.SUPABASE_SERVICE_ROLE_KEY = false)) ∧
    (startupV2 e = .exitFail ↔
      (truthy e.STRIPE_SECRET_KEY = false ∨ truthy e.STRIPE_PRICE_ID = false ∨
        truthy e.STRIPE_WEBHOOK_SECRET = false ∨ truthy e.SUPABASE_URL = false ∨
        truthy e.SUPABASE_SERVICE_ROLE_KEY = false)) := by
  obtain ⟨k1, k2, k3, k4, k5⟩ := e
  simp only [startupV1, startupV2]
  cases h1 : truthy k1 <;> cases h2 : truthy k2 <;> cases h3 : truthy k3 <;>
    cases h4 : truthy k4 <;> cases h5 : truthy k5 <;>
      simp

/-- C8: for a truthy userId whose row stores no truthy
stripe_customer_id, the create-checkout-session route succeeds, issues
a customers.create call tagged with the account id, persists the fresh
customer id to the account row strictly before the sessions.create
call, and every sessions.create call it issues carries the account id
as client_reference_id, the configured price id (the request body
supplies no price) and the fresh customer.  The resulting users table
stores the fresh customer id on the matched row. -/
theorem create_checkout_session_new_customer (cfg : Config)
    (userId email : Option String) (fresh url : String) (st : Store)
    (huser : truthy userId = true)
    (hnocust : truthy ((st.find? fun a => a.id = userId.getD "").bind
      Account.stripe_customer_id) = false) :
    (createCheckoutSession true cfg userId email fresh url st).1 = .okUrl url ∧
    Effect.customersCreate (if truthy email then email else none) (userId.getD "") ∈
      (createCheckoutSession true cfg userId email fresh url st).2.1 ∧
    (∃ i j : Nat, i < j ∧
      (createCheckoutSession true cfg userId email fresh url st).2.1[i]? =
        some (.dbUpdateCustomerId (userId.getD "") fresh) ∧
      (∃ m c p r, (createCheckoutSession true cfg userId email fresh url st).2.1[j]? =
        some (.sessionsCreate m c p r))) ∧
    (∀ m c p r, Effect.sessionsCreate m c p r ∈
        (createCheckoutSession true cfg userId email fresh url st).2.1 →
      r = userId.getD "" ∧ p = cfg.STRIPE_PRICE_ID ∧ c = fresh) ∧
    (∀ (k : Nat) (a : Account), st[k]? = some a → a.id = userId.getD "" →
      (createCheckoutSession true cfg userId email fresh url st).2.2[k]? =
        some { a with stripe_customer_id := some fresh }) := by
  have hred : createCheckoutSession true cfg userId email fresh url st =
      (.okUrl url,
       [.customersCreate (if truthy email then email else none) (userId.getD ""),
        .dbUpdateCustomerId (userId.getD "") fresh,
        .sessionsCreate "subscription" fresh cfg.STRIPE_PRICE_ID (userId.getD "")],
       st.map fun a => if a.id = userId.getD "" then
         { a with stripe_customer_id := some fresh } else a) := by
    simp [createCheckoutSession, huser, hnocust]
  rw [hred]
  refine ⟨rfl, by simp, ?_, ?_, ?_⟩
  · exact ⟨1, 2, by omega, rfl,
      "subscription", fresh, cfg.STRIPE_PRICE_ID, userId.getD "", rfl⟩
  · intro m c p r hmem
    simp only [List.mem_cons, List.not_mem_nil, or_false] at hmem
    rcases hmem with h | h | h
    · exact absurd h (by simp)
    · exact absurd h (by simp)
    · injection h with h1 h2 h3 h4
      exact ⟨h4, h3, h2⟩
  · intro k a hka hid
    simp [List.getElem?_map, hka, hid]

/-- Witness for C8 at a concrete input: account u1 with no customer
id, price price_123 from configuration, fresh customer cus_9. -/
theorem create_checkout_session_new_customer_witness :
    (createCheckoutSession true ⟨some "price_123"⟩ (some "u1") none "cus_9"
        "https://pay.example" [⟨"u1", none, none, false⟩]).1 =
      .okUrl "https://pay.example" ∧
    Effect.customersCreate none "u1" ∈
      (createCheckoutSession true ⟨some "price_123"⟩ (some "u1") none "cus_9"
        "https://pay.example" [⟨"u1", none, none, false⟩]).2.1 ∧
    (∃ i j : Nat, i < j ∧
      (createCheckoutSession true ⟨some "price_123"⟩ (some "u1") none "cus_9"
        "https://pay.example" [⟨"u1", none, none, false⟩]).2.1[i]? =
        some (.dbUpdateCustomerId "u1" "cus_9") ∧
      (∃ m c p r, (createCheckoutSession true ⟨some "price_123"⟩ (some "u1") none "cus_9"
        "https://pay.example" [⟨"u1", none, none, false⟩]).2.1[j]? =
        some (.sessionsCreate m c p r))) ∧
    (∀ m c p r, Effect.sessionsCreate m c p r ∈
        (createCheckoutSession true ⟨some "price_123"⟩ (some "u1") none "cus_9"
          "https://pay.example" [⟨"u1", none, none, false⟩]).2.1 →
      r = "u1" ∧ p = some "price_123" ∧ c = "cus_9") ∧
    (∀ (k : Nat) (a : Account),
      [(⟨"u1", none, none, false⟩ : Account)][k]? = some a → a.id = "u1" →
      (createCheckoutSession true ⟨some "price_123"⟩ (some "u1") none "cus_9"
        "https://pay.example" [⟨"u1", none, none, false⟩]).2.2[k]? =
        some { a with stripe_customer_id := some "cus_9" }) :=
  create_checkout_session_new_customer ⟨some "price_123"⟩ (some "u1") none "cus_9"
    "https://pay.example" [⟨"u1", none, none, false⟩] (by decide) (by decide)

end ParrainSport
